import Mathlib

/-!
Verification of the storage-bootstrap and monitoring-dashboard behavior of the
SRPH-MIS server (src/server/index.ts and the ServerMonitoring client page).

The bootstrap IIFE of src/server/index.ts is embedded as a pure function over
the boolean outcomes of its external probes (connection flags, migration,
backend construction); the shared storage handle is a record of an identity
and a name-indexed binding map, and the rebind loop of lines 124-128 is the
function `rebindAll`.  The ServerMonitoring page's configuration schema,
save mutation, retry policy and availability displays are embedded directly
from their source expressions.
-/

namespace SrphMis

/-- Which concrete backend a given operation name on the shared storage
handle currently dispatches to.  `mem` is the in-memory backend that the
handle is born with; `durable` is the PostgreSQL-backed `DatabaseStorage`. -/
inductive BackendId where
  | mem
  | durable
deriving DecidableEq, Repr

/-- The shared storage handle of src/server/storage (`storage`), as seen by
src/server/index.ts: a single long-lived object (identity `handleId`) whose
named operations each dispatch to one backend.  Rebinding mutates
`bindings`, never `handleId`. -/
structure StorageHandle where
  handleId : Nat
  bindings : String → BackendId

/-- The handle as it exists before bootstrap: every operation bound to the
in-memory backend. -/
def initialHandle : StorageHandle :=
  { handleId := 0, bindings := fun _ => BackendId.mem }

/-- The rebind loop of src/server/index.ts lines 124-128: for each property
name of `DatabaseStorage.prototype` (the list `ops`, whose members other
than the constructor are function-valued), except `constructor`, bind the
handle's operation of that name to the durable backend.  The handle's
identity is untouched. -/
def rebindAll (h : StorageHandle) (ops : List String) : StorageHandle :=
  { h with
    bindings := fun n =>
      if ops.contains n ∧ n ≠ "constructor" then BackendId.durable
      else h.bindings n }

/-- The backend-selection predicate, line 102 of src/server/index.ts:
`(freshConnectionStatus || databaseConnected || actualConnectionVerified)
&& process.env.DATABASE_URL && freshDb`. -/
def selectDurable (declared fresh verified hasUrl hasDb : Bool) : Bool :=
  (fresh || declared || verified) && hasUrl && hasDb

/-- The spec's wording of the same rule (section 4.1 step 4): use durable
iff at least one of the three signals is true AND a connection target is
configured AND a handle exists. -/
def selectDurableSpec (declared fresh verified hasUrl hasDb : Bool) : Prop :=
  (declared = true ∨ fresh = true ∨ verified = true) ∧
    hasUrl = true ∧ hasDb = true

/-- Result of the bootstrap IIFE (src/server/index.ts lines 63-150): the
shared handle after any rebinding, the `usingDatabase` flag, and the
console log lines that depend on the probe outcomes. -/
structure BootResult where
  handle : StorageHandle
  usingDatabase : Bool
  logs : List String

/-- The direct-probe phase, lines 78-99: `actualConnectionVerified` is set
only when a DATABASE_URL is configured, a db handle exists, and the
`SELECT 1` probe returns at least one row (`probeOk`).  Inside a
successful probe, a second, non-fatal probe checks the `vm_monitoring`
table and only logs its outcome (`tableOk`). -/
def probePhase (hasUrl hasDb probeOk tableOk : Bool) : Bool × List String :=
  if hasUrl && hasDb then
    if probeOk then
      (true,
        ["Direct connection test result: SUCCESS",
         if tableOk then "VM monitoring table accessible: SUCCESS"
         else "VM monitoring table check: TABLE MISSING OR INACCESSIBLE"])
    else (false, ["Direct connection test failed"])
  else (false, [])

/-- The bootstrap IIFE, lines 63-150, as a function of the boolean outcomes
of its external calls.  `declared` is `databaseConnected` from the first
import, `fresh` is `freshConnectionStatus` from the re-import after the
settling delay, `hasUrl` is the presence of `process.env.DATABASE_URL`,
`hasDb` the presence of the `freshDb` handle, `probeOk`/`tableOk` the two
probe queries, `migrationOk` the `runMigrations()` call, `initDbOk` the
`initializeDatabase()` call and `constructOk` the `new DatabaseStorage()`
construction.  `ops` is the property-name list of
`DatabaseStorage.prototype`.  On any failure inside the try blocks the
handle is left untouched and `usingDatabase` stays false. -/
def bootstrap (declared fresh hasUrl hasDb probeOk tableOk migrationOk
    initDbOk constructOk : Bool) (ops : List String) : BootResult :=
  let probed := probePhase hasUrl hasDb probeOk tableOk
  let verified := probed.1
  if selectDurable declared fresh verified hasUrl hasDb then
    if migrationOk then
      if initDbOk && constructOk then
        { handle := rebindAll initialHandle ops
          usingDatabase := true
          logs := probed.2 ++ ["PostgreSQL storage initialized successfully!"] }
      else
        { handle := initialHandle
          usingDatabase := false
          logs := probed.2 ++ ["Failed to initialize database storage",
                               "Falling back to in-memory storage"] }
    else
      { handle := initialHandle
        usingDatabase := false
        logs := probed.2 ++ ["Database migrations failed",
                             "Falling back to in-memory storage"] }
  else
    { handle := initialHandle
      usingDatabase := false
      logs := probed.2 ++ ["PostgreSQL not available - using in-memory storage"] }

/-- Invoking a named operation on the handle dispatches to whichever
backend implementation the binding currently names — the in-memory method
set `memF` or the durable method set `durF`. -/
def invoke {α β : Type} (h : StorageHandle) (memF durF : String → α → β)
    (op : String) (a : α) : β :=
  match h.bindings op with
  | BackendId.mem => memF op a
  | BackendId.durable => durF op a

/-- C1: for every combination of the three connection signals and both
settings of the target/handle conditions, the bootstrap's selection
predicate (line 102) chooses the durable backend iff at least one signal
is true AND a DATABASE_URL is configured AND a db handle exists — the
code's predicate coincides with the spec's rule on all truth-table rows. -/
theorem backend_selection_truth_table
    (declared fresh verified hasUrl hasDb : Bool) :
    selectDurable declared fresh verified hasUrl hasDb = true ↔
      selectDurableSpec declared fresh verified hasUrl hasDb := by
  cases declared <;> cases fresh <;> cases verified <;> cases hasUrl <;>
    cases hasDb <;> simp [selectDurable, selectDurableSpec]

/-- C2: whenever the migration run fails, or `initializeDatabase` fails, or
`DatabaseStorage` construction fails, the bootstrap completes with the
in-memory backend active and no operation on the shared handle rebound:
every binding is still the in-memory one and the handle is untouched. -/
theorem migration_failure_no_rebind
    (declared fresh hasUrl hasDb probeOk tableOk migrationOk initDbOk
      constructOk : Bool) (ops : List String)
    (hfail : migrationOk = false ∨ initDbOk = false ∨ constructOk = false) :
    (bootstrap declared fresh hasUrl hasDb probeOk tableOk migrationOk
        initDbOk constructOk ops).usingDatabase = false ∧
      (bootstrap declared fresh hasUrl hasDb probeOk tableOk migrationOk
        initDbOk constructOk ops).handle = initialHandle := by
  cases declared <;> cases fresh <;> cases hasUrl <;> cases hasDb <;>
    cases probeOk <;> cases migrationOk <;> cases initDbOk <;>
      cases constructOk <;>
        simp_all [bootstrap, selectDurable, probePhase]

/-- Closed witness for `migration_failure_no_rebind` at a concrete run:
all signals up, migration fails. -/
theorem migration_failure_no_rebind_witness :
    ((false : Bool) = false ∨ (true : Bool) = false ∨ (true : Bool) = false) ∧
      (bootstrap true true true true true true false true true
          ["constructor", "getUserByUsername", "createUser"]).usingDatabase
        = false ∧
      (bootstrap true true true true true true false true true
          ["constructor", "getUserByUsername", "createUser"]).handle
        = initialHandle :=
  ⟨Or.inl rfl,
    migration_failure_no_rebind true true true true true true false true true
      ["constructor", "getUserByUsername", "createUser"] (Or.inl rfl)⟩

/-- C3: when backend selection holds and migration, `initializeDatabase`
and `DatabaseStorage` construction all succeed, every named operation of
the prototype other than `constructor` — in particular `getUserByUsername`
and `createUser` — dispatches to the durable backend's method, and the
shared handle's identity is unchanged, so existing references observe the
swap without re-acquiring the handle. -/
theorem successful_swap_delegates
    (declared fresh hasUrl hasDb probeOk tableOk : Bool) (ops : List String)
    {α β : Type} (memF durF : String → α → β) (op : String) (a : α)
    (hsel : selectDurable declared fresh
      (probePhase hasUrl hasDb probeOk tableOk).1 hasUrl hasDb = true)
    (hop : op ∈ ops) (hc : op ≠ "constructor") :
    invoke (bootstrap declared fresh hasUrl hasDb probeOk tableOk true true
        true ops).handle memF durF op a = durF op a ∧
      (bootstrap declared fresh hasUrl hasDb probeOk tableOk true true
        true ops).handle.handleId = initialHandle.handleId := by
  have hmem : ops.contains op = true := by
    simpa using hop
  constructor
  · simp [bootstrap, hsel, invoke, rebindAll, hmem, hc]
    rw [if_pos hop]
  · simp [bootstrap, hsel, rebindAll]

/-- Closed witness for `successful_swap_delegates`: all probes up, the
prototype carries `getUserByUsername` and `createUser`, and invoking
`getUserByUsername` after the swap runs the durable implementation. -/
theorem successful_swap_delegates_witness :
    selectDurable true true (probePhase true true true true).1 true true
        = true ∧
      "getUserByUsername" ∈
        ["constructor", "getUserByUsername", "createUser"] ∧
      "getUserByUsername" ≠ "constructor" ∧
      (invoke (bootstrap true true true true true true true true true
          ["constructor", "getUserByUsername", "createUser"]).handle
        (fun _ (n : Nat) => n) (fun _ n => n + 1) "getUserByUsername" 41
          = 42 ∧
      (bootstrap true true true true true true true true true
          ["constructor", "getUserByUsername", "createUser"]).handle.handleId
        = initialHandle.handleId) :=
  ⟨by decide, by decide, by decide,
    successful_swap_delegates true true true true true true
      ["constructor", "getUserByUsername", "createUser"]
      (fun _ (n : Nat) => n) (fun _ n => n + 1) "getUserByUsername" 41
      (by decide) (by decide) (by decide)⟩

/-- C9: the secondary `vm_monitoring` table probe never gates backend
selection — two bootstrap runs differing only in the table's
presence/accessibility produce the same `usingDatabase` flag and the same
handle; the probe's failure shows up only in the log stream. -/
theorem table_probe_never_gates
    (declared fresh hasUrl hasDb probeOk migrationOk initDbOk constructOk
      t1 t2 : Bool) (ops : List String) :
    ((bootstrap declared fresh hasUrl hasDb probeOk t1 migrationOk initDbOk
        constructOk ops).usingDatabase
      = (bootstrap declared fresh hasUrl hasDb probeOk t2 migrationOk
        initDbOk constructOk ops).usingDatabase ∧
      (bootstrap declared fresh hasUrl hasDb probeOk t1 migrationOk initDbOk
        constructOk ops).handle
      = (bootstrap declared fresh hasUrl hasDb probeOk t2 migrationOk
        initDbOk constructOk ops).handle) ∧
      "VM monitoring table check: TABLE MISSING OR INACCESSIBLE" ∈
        (probePhase true true true false).2 := by
  refine ⟨?_, by decide⟩
  cases hasUrl <;> cases hasDb <;> cases probeOk <;> cases declared <;>
    cases fresh <;> cases migrationOk <;> cases initDbOk <;>
      cases constructOk <;> exact ⟨rfl, rfl⟩

/-- One view/edit/add permission triple of the admin permission matrix
(src/server/index.ts lines 168-180). -/
structure Permission where
  view : Bool
  edit : Bool
  add : Bool
deriving DecidableEq, Repr

/-- The permission matrix: one triple per managed resource category,
matching the object literal of src/server/index.ts lines 168-180. -/
structure PermissionMatrix where
  assets : Permission
  components : Permission
  accessories : Permission
  consumables : Permission
  licenses : Permission
  users : Permission
  reports : Permission
  vmMonitoring : Permission
  networkDiscovery : Permission
  bitlockerKeys : Permission
  admin : Permission
deriving DecidableEq, Repr

/-- A user record with the fields passed to `createUser` in
src/server/index.ts lines 160-181. -/
structure User where
  username : String
  password : String
  firstName : String
  lastName : String
  email : String
  isAdmin : Bool
  department : String
  permissions : PermissionMatrix
deriving DecidableEq, Repr

/-- The all-true permission triple. -/
def fullPermission : Permission := { view := true, edit := true, add := true }

/-- The full permission matrix: the all-true triple for each of the eleven
resource categories. -/
def fullPermissionMatrix : PermissionMatrix :=
  { assets := fullPermission
    components := fullPermission
    accessories := fullPermission
    consumables := fullPermission
    licenses := fullPermission
    users := fullPermission
    reports := fullPermission
    vmMonitoring := fullPermission
    networkDiscovery := fullPermission
    bitlockerKeys := fullPermission
    admin := fullPermission }

/-- The default admin user literal of src/server/index.ts lines 160-181. -/
def defaultAdminUser : User :=
  { username := "admin"
    password := "admin123"
    firstName := "Admin"
    lastName := "User"
    email := "admin@example.com"
    isAdmin := true
    department := "IT"
    permissions :=
      { assets := { view := true, edit := true, add := true }
        components := { view := true, edit := true, add := true }
        accessories := { view := true, edit := true, add := true }
        consumables := { view := true, edit := true, add := true }
        licenses := { view := true, edit := true, add := true }
        users := { view := true, edit := true, add := true }
        reports := { view := true, edit := true, add := true }
        vmMonitoring := { view := true, edit := true, add := true }
        networkDiscovery := { view := true, edit := true, add := true }
        bitlockerKeys := { view := true, edit := true, add := true }
        admin := { view := true, edit := true, add := true } } }

/-- Modelled from the spec: the storage backend implementations
(`storage.ts`, `database-storage.ts`) are not part of the excerpt; section
6 gives the operation contracts `getUserByUsername(username) -> User |
absent` and `createUser(fields) -> User`.  The backend's user set is a
list of records; lookup returns the first record with the given username. -/
def getUserByUsername (store : List User) (name : String) : Option User :=
  store.find? (fun u => u.username == name)

/-- Modelled from the spec: `createUser` inserts the new record into the
backend's user set. -/
def createUser (store : List User) (u : User) : List User := store ++ [u]

/-- The admin-bootstrap step of src/server/index.ts lines 152-191: look up
the sentinel username `admin`; if absent, create the default admin user;
otherwise leave the store unchanged. -/
def adminBootstrapStep (store : List User) : List User :=
  match getUserByUsername store "admin" with
  | some _ => store
  | none => createUser store defaultAdminUser

/-- The number of admin accounts (records with the sentinel username) in a
store. -/
def adminCount (store : List User) : Nat :=
  (store.filter (fun u => u.username == "admin")).length

theorem adminCount_adminBootstrapStep (s : List User) :
    adminCount (adminBootstrapStep s)
      = if adminCount s = 0 then 1 else adminCount s := by
  unfold adminBootstrapStep
  cases h : getUserByUsername s "admin" with
  | none =>
    have hf : s.filter (fun u => u.username == "admin") = [] := by
      rw [List.filter_eq_nil_iff]
      intro a ha
      simpa using List.find?_eq_none.mp h a ha
    simp [adminCount, createUser, List.filter_append, hf, defaultAdminUser]
  | some u =>
    have h' : s.find? (fun x => x.username == "admin") = some u := h
    have hp := List.find?_some h'
    have hmem : u ∈ s.filter (fun x => x.username == "admin") :=
      List.mem_filter.mpr ⟨List.mem_of_find?_eq_some h', by simpa using hp⟩
    have hpos : 0 < adminCount s := by
      have := List.length_pos.mpr (List.ne_nil_of_mem hmem)
      simpa [adminCount] using this
    have hne : adminCount s ≠ 0 := by omega
    rw [if_neg hne]

/-- C4: the admin-bootstrap step is idempotent — on any store satisfying
the data-model invariant that the sentinel username names at most one
record, running the step twice leaves exactly one admin account; the step
creates only when the lookup finds no admin, leaves the store unchanged
otherwise, and the record it creates has `isAdmin` true and the full
permission matrix (all three verbs granted on all eleven categories). -/
theorem admin_bootstrap_idempotent (s : List User)
    (hinv : adminCount s ≤ 1) :
    adminCount (adminBootstrapStep (adminBootstrapStep s)) = 1 ∧
      (getUserByUsername s "admin" = none →
        adminBootstrapStep s = createUser s defaultAdminUser) ∧
      (∀ u, getUserByUsername s "admin" = some u →
        adminBootstrapStep s = s) ∧
      defaultAdminUser.isAdmin = true ∧
      defaultAdminUser.permissions = fullPermissionMatrix := by
  refine ⟨?_, ?_, ?_, rfl, by decide⟩
  · rw [adminCount_adminBootstrapStep, adminCount_adminBootstrapStep]
    rcases Nat.lt_or_ge 0 (adminCount s) with hpos | hz
    · have h1 : adminCount s = 1 := by omega
      simp [h1]
    · have h0 : adminCount s = 0 := by omega
      simp [h0]
  · intro h
    simp [adminBootstrapStep, h]
  · intro u h
    simp [adminBootstrapStep, h]

/-- Closed witness for `admin_bootstrap_idempotent` at the empty store. -/
theorem admin_bootstrap_idempotent_witness :
    adminCount ([] : List User) ≤ 1 ∧
      adminCount (adminBootstrapStep (adminBootstrapStep [])) = 1 :=
  ⟨by decide, (admin_bootstrap_idempotent [] (by decide)).1⟩

/-- A call into the external logger: it either returns or throws
(`loggerThrows` selects the behavior, as when the logger is made to throw
in a test). -/
def externalLoggerCall (loggerThrows : Bool) : Except String Unit :=
  if loggerThrows then Except.error "logger failure" else Except.ok ()

/-- The API logging middleware's finish handler, src/server/index.ts lines
27-58: the response (already computed) is untouched, and the
`externalLogger.logApiRequest` call is wrapped in try/catch whose handler
only writes to the local diagnostic stream (line 55). -/
def apiLogFinish (loggerThrows : Bool) (response : Nat × String) :
    (Nat × String) × List String :=
  match externalLoggerCall loggerThrows with
  | Except.ok _ => (response, [])
  | Except.error e =>
      (response, ["Failed to log API request externally: " ++ e])

/-- The heartbeat timer body, src/server/index.ts lines 258-267: the
`logHeartbeat` call is wrapped in try/catch; the timer keeps running
(first component true) and a failure goes only to the diagnostic
stream. -/
def heartbeatTick (loggerThrows : Bool) : Bool × List String :=
  match externalLoggerCall loggerThrows with
  | Except.ok _ => (true, [])
  | Except.error e => (true, ["Heartbeat logging failed: " ++ e])

/-- The tail of `startServer`, src/server/index.ts lines 208-220: the
`externalLogger.logSystem` call at line 209 is NOT wrapped in any
try/catch, and `server.listen` runs only after it; a throw there
propagates out of `startServer` to the `.catch` at line 291 and the
listener never starts.  Returns `ok "listening"` when the listener
starts. -/
def startServerTail (loggerThrows : Bool) : Except String String :=
  match externalLoggerCall loggerThrows with
  | Except.ok _ => Except.ok "listening"
  | Except.error e => Except.error e

/-- C5 counterexample: at the `logSystem` call site in `startServer`
(line 209), a logging failure DOES propagate and prevents the primary
operation — `startServerTail` with a throwing logger errors out instead
of reaching `server.listen`, while with a working logger it listens.  So
it is not the case that every logging call site in the startup and
request-handling paths shields its caller. -/
theorem logging_failure_counterexample :
    startServerTail true = Except.error "logger failure" ∧
      startServerTail false = Except.ok "listening" := by
  constructor <;> rfl

/-- C5 amended: at the wrapped call sites — the API request-logging
middleware (lines 42-56) and the heartbeat timer (lines 258-267) — a
logging failure does not alter the primary operation's result and is only
reported to the local diagnostic stream; but the `logSystem` call in
`startServer` (line 209) and the post-start `logLifecycle` call (line
250) are not wrapped, and a logging failure there propagates to the
startup path, preventing the listener from starting. -/
theorem logging_failure_isolated_at_wrapped_sites
    (loggerThrows : Bool) (response : Nat × String) :
    (apiLogFinish loggerThrows response).1 = response ∧
      (heartbeatTick loggerThrows).1 = true ∧
      (startServerTail true).isOk = false := by
  cases loggerThrows <;>
    exact ⟨rfl, rfl, rfl⟩

/-- A Zabbix monitoring configuration as validated by `zabbixConfigSchema`
(ServerMonitoring page, lines 39-46).  `urlIsValid` is the outcome of the
platform's URL parse performed by `z.string().url()`. -/
structure ZabbixConfigInput where
  urlIsValid : Bool
  username : String
  password : String
  apiVersion : String
  autoRefresh : Bool
  refreshInterval : Int
deriving DecidableEq, Repr

/-- The `zabbixConfigSchema` validator: valid URL, nonempty username and
password, and refresh interval within 30..600. -/
def zabbixConfigValid (c : ZabbixConfigInput) : Bool :=
  c.urlIsValid && decide (1 ≤ c.username.length)
    && decide (1 ≤ c.password.length)
    && decide (30 ≤ c.refreshInterval) && decide (c.refreshInterval ≤ 600)

/-- A network request the monitoring page can issue. -/
inductive NetworkCall where
  | testConnection
  | metrics
deriving DecidableEq, Repr

/-- The form-submit path: `form.handleSubmit(handleSubmit)` runs the
`zodResolver` first, so `saveConfigMutation` (whose first step is the
test-connection fetch) receives only inputs the schema accepts; invalid
inputs produce field errors and no request. -/
def submitFlowCalls (c : ZabbixConfigInput) : List NetworkCall :=
  if zabbixConfigValid c then [NetworkCall.testConnection] else []

/-- The Test Connection button (ServerMonitoring page, around line 402):
`onClick` calls `testConnectionMutation.mutate(form.getValues())`
directly, bypassing the resolver, so the test-connection fetch is issued
whatever the form holds. -/
def testButtonCalls (_c : ZabbixConfigInput) : List NetworkCall :=
  [NetworkCall.testConnection]

/-- A concrete configuration whose refresh interval (700) lies outside
30..600 while every other field is acceptable. -/
def outOfRangeConfig : ZabbixConfigInput :=
  { urlIsValid := true
    username := "admin"
    password := "secret"
    apiVersion := "2.4"
    autoRefresh := true
    refreshInterval := 700 }

/-- C6 counterexample: for the out-of-range configuration the schema does
reject, yet pressing Test Connection issues a connectivity-test request —
so it is not the case that no connectivity-test request is issued for
invalid input. -/
theorem invalid_config_network_call_counterexample :
    zabbixConfigValid outOfRangeConfig = false ∧
      testButtonCalls outOfRangeConfig = [NetworkCall.testConnection] := by
  constructor <;> rfl

/-- C6 amended: on the form-submit (save) path, any input with an invalid
URL, empty username or password, or a refresh interval outside 30..600
fails `zabbixConfigSchema` validation and no network request is issued;
the standalone Test Connection button, however, sends the
connectivity-test request without validating. -/
theorem invalid_config_no_submit_call (c : ZabbixConfigInput)
    (hbad : c.urlIsValid = false ∨ c.username.length = 0 ∨
      c.password.length = 0 ∨ c.refreshInterval < 30 ∨
      600 < c.refreshInterval) :
    zabbixConfigValid c = false ∧ submitFlowCalls c = [] := by
  have hv : zabbixConfigValid c = false := by
    rcases hbad with h | h | h | h | h <;>
      simp [zabbixConfigValid, h]
  exact ⟨hv, by simp [submitFlowCalls, hv]⟩

/-- Closed witness for `invalid_config_no_submit_call` at the concrete
out-of-range configuration. -/
theorem invalid_config_no_submit_call_witness :
    (outOfRangeConfig.urlIsValid = false ∨
        outOfRangeConfig.username.length = 0 ∨
        outOfRangeConfig.password.length = 0 ∨
        outOfRangeConfig.refreshInterval < 30 ∨
        600 < outOfRangeConfig.refreshInterval) ∧
      zabbixConfigValid outOfRangeConfig = false ∧
      submitFlowCalls outOfRangeConfig = [] :=
  ⟨Or.inr (Or.inr (Or.inr (Or.inr (by decide)))),
    invalid_config_no_submit_call outOfRangeConfig
      (Or.inr (Or.inr (Or.inr (Or.inr (by decide)))))⟩

/-- Whether `pat` occurs as a contiguous run inside `l` (the list form of
JavaScript's `String.prototype.includes`). -/
def listHasRun [BEq α] : List α → List α → Bool
  | pat, [] => pat.isEmpty
  | pat, a :: as => pat.isPrefixOf (a :: as) || listHasRun pat as

/-- `String.prototype.includes`: does `msg` contain `pat`? -/
def includesSubstr (msg pat : String) : Bool :=
  listHasRun pat.toList msg.toList

/-- The `retry` callback of the metrics `useQuery` (ServerMonitoring page,
lines 238-245): never retry an error whose message contains
`Authentication` or `401`; otherwise retry while fewer than 3 failures
have occurred. -/
def shouldRetry (failureCount : Nat) (msg : String) : Bool :=
  if includesSubstr msg "Authentication" || includesSubstr msg "401" then
    false
  else
    decide (failureCount < 3)

/-- The `retryDelay` callback (line 246):
`Math.min(1000 * 2 ** attemptIndex, 30000)`. -/
def retryDelay (attemptIndex : Nat) : Nat :=
  min (1000 * 2 ^ attemptIndex) 30000

/-- Modelled from the spec: the query layer driving the callbacks is the
external react-query collaborator; section 4.4 says failures "retry up to
3 times".  The layer invokes the `retry` callback after each failed
attempt with the number of failures already recorded (0 on the first) and
retries while it returns true, so the number of retries is the length of
the run of consecutive counts accepted by `shouldRetry` starting at 0.
Counts 0..3 are exhaustive because this callback refuses any count from 3
on. -/
def retryCount (msg : String) : Nat :=
  (([0, 1, 2, 3] : List Nat).takeWhile (fun n => shouldRetry n msg)).length

/-- C7: an error message containing `Authentication` or `401` gets zero
retries; any other message gets exactly 3 retries before the error
surfaces; and the delay before retry `i` is 1000·2^i milliseconds capped
at 30000 (the cap binding exactly from attempt index 5 on). -/
theorem metrics_retry_policy (msg : String) (i : Nat) :
    ((includesSubstr msg "Authentication" || includesSubstr msg "401")
        = true → retryCount msg = 0) ∧
      ((includesSubstr msg "Authentication" || includesSubstr msg "401")
        = false → retryCount msg = 3) ∧
      retryDelay i ≤ 30000 ∧
      (i ≤ 4 → retryDelay i = 1000 * 2 ^ i) ∧
      (5 ≤ i → retryDelay i = 30000) := by
  refine ⟨?_, ?_, ?_, ?_, ?_⟩
  · intro h
    simp [retryCount, List.takeWhile, shouldRetry, h]
  · intro h
    simp [retryCount, List.takeWhile, shouldRetry, h]
  · exact Nat.min_le_right _ _
  · intro h
    have hle : 1000 * 2 ^ i ≤ 30000 := by
      calc 1000 * 2 ^ i ≤ 1000 * 2 ^ 4 :=
            Nat.mul_le_mul_left _ (Nat.pow_le_pow_right (by omega) h)
        _ ≤ 30000 := by norm_num
    simpa [retryDelay] using Nat.min_eq_left hle
  · intro h
    have hge : 30000 ≤ 1000 * 2 ^ i := by
      calc (30000 : Nat) ≤ 1000 * 2 ^ 5 := by norm_num
        _ ≤ 1000 * 2 ^ i :=
            Nat.mul_le_mul_left _ (Nat.pow_le_pow_right (by omega) h)
    simpa [retryDelay] using Nat.min_eq_right hge

/-- Closed witness for `metrics_retry_policy`: an authentication message
gets 0 retries, a network message gets 3, and the delays at attempt
indices 2 and 5 are 4000 and the 30000 cap. -/
theorem metrics_retry_policy_witness :
    retryCount "Authentication failed" = 0 ∧
      retryCount "Network timeout" = 3 ∧
      retryDelay 2 = 1000 * 2 ^ 2 ∧
      retryDelay 5 = 30000 :=
  ⟨(metrics_retry_policy "Authentication failed" 0).1 (by decide),
    (metrics_retry_policy "Network timeout" 0).2.1 (by decide),
    (metrics_retry_policy "" 2).2.2.2.1 (by decide),
    (metrics_retry_policy "" 5).2.2.2.2 (by decide)⟩

/-- The `saveConfigMutation` body (ServerMonitoring page, lines 156-175):
first the test-connection request; when it fails the thrown error leaves
client-local storage untouched; when it succeeds the configuration is
written to `localStorage` under `zabbix-server-config`. -/
def saveConfigMutation (testOk : Bool) (stored : Option ZabbixConfigInput)
    (c : ZabbixConfigInput) :
    Option ZabbixConfigInput × Except String ZabbixConfigInput :=
  if testOk then (some c, Except.ok c)
  else (stored, Except.error "Connection test failed")

/-- C8: saving is atomic with respect to the connectivity test — on a
successful test the configuration is persisted and returned; on a failed
test the stored configuration is exactly what it was before and an error
surfaces to the caller. -/
theorem save_config_atomic (stored : Option ZabbixConfigInput)
    (c : ZabbixConfigInput) :
    saveConfigMutation true stored c = (some c, Except.ok c) ∧
      saveConfigMutation false stored c
        = (stored, Except.error "Connection test failed") := by
  constructor <;> rfl

/-- The availability Progress value (ServerMonitoring page, line 716):
`metrics?.totalHosts ? (metrics.availableHosts / metrics.totalHosts) *
100 : 0`. -/
def availabilityValue (available total : Nat) : ℚ :=
  if total ≠ 0 then ((available : ℚ) / (total : ℚ)) * 100 else 0

/-- The availability summary figure (ServerMonitoring page, line 948):
`(totalHosts || 0) === 0 ? 0 : (availableHosts || 0) / (totalHosts || 1) *
100`. -/
def availabilitySummary (available total : Nat) : ℚ :=
  if total = 0 then 0
  else ((available : ℚ) / (if total = 0 then (1 : ℚ) else (total : ℚ))) * 100

/-- C10: both availability displays are guarded against division by zero —
with no hosts they show 0, and with at least one host they show
availableHosts / totalHosts × 100. -/
theorem availability_division_guard (available total : Nat) :
    (total = 0 → availabilityValue available total = 0 ∧
      availabilitySummary available total = 0) ∧
      (0 < total → availabilityValue available total
          = (available : ℚ) / (total : ℚ) * 100 ∧
        availabilitySummary available total
          = (available : ℚ) / (total : ℚ) * 100) := by
  constructor
  · intro h
    simp [availabilityValue, availabilitySummary, h]
  · intro h
    have hne : total ≠ 0 := Nat.pos_iff_ne_zero.mp h
    simp [availabilityValue, availabilitySummary, hne]

/-- Closed witness for `availability_division_guard` at 3 of 4 hosts
available and at the empty fleet. -/
theorem availability_division_guard_witness :
    (0 < 4 ∧ availabilityValue 3 4 = (3 : ℚ) / 4 * 100) ∧
      ((0 : Nat) = 0 ∧ availabilityValue 3 0 = 0) :=
  ⟨⟨by decide, ((availability_division_guard 3 4).2 (by decide)).1⟩,
    ⟨rfl, ((availability_division_guard 3 0).1 rfl).1⟩⟩

end SrphMis
